import Mathlib

/-!
Verification development for the records screen of the AngulareCommerce
storefront (RecordsComponent in `src/unnamed/part_000` and GroupsService in
`src/src/app/ecommerce/services/GroupsService.ts`).

The TypeScript/RxJS code is shallowly embedded:
* JSON values exchanged with the HTTP gateway become the inductive `Js`;
  JavaScript truthiness, property access, `hasOwnProperty` and
  `Object.values` become the helpers on `Js`.
* The component's mutable fields become the explicit state `CState`.
  JavaScript array identity (reference equality of array objects) is made
  explicit with an allocation tag: every expression that allocates a fresh
  array (`[...]` spread, `Array.map`, `Array.filter`, an array literal)
  draws a fresh tag from the allocator `fresh`, while in-place mutation of
  an existing array keeps its tag.
* An HTTP call's outcome is an `Except Js Js` (error object or response
  body); an RxJS `subscribe` whose continuations run on resolution is
  embedded as a function taking the outcome, with a `pending` phase where
  state observed before the network call resolves is described.
-/

namespace ECom

/-! ## JavaScript string primitives used by the component -/

/-- The character list of a string with leading and trailing whitespace
removed, as `String.prototype.trim` produces. -/
def jsTrim (s : String) : String :=
  ⟨((s.data.dropWhile Char.isWhitespace).reverse.dropWhile Char.isWhitespace).reverse⟩

/-- Character-wise lowering, as `String.prototype.toLowerCase` produces for
the ASCII data the screen handles. -/
def jsToLower (s : String) : String := ⟨s.data.map Char.toLower⟩

/-- `isPrefOf p l` decides whether `p` is an initial segment of `l`. -/
def isPrefOf : List Char → List Char → Bool
  | [], _ => true
  | _ :: _, [] => false
  | a :: as, b :: bs => a == b && isPrefOf as bs

/-- `hasSub l sub` decides whether `sub` occurs contiguously inside `l`. -/
def hasSub (l sub : List Char) : Bool :=
  isPrefOf sub l ||
    match l with
    | [] => false
    | _ :: t => hasSub t sub

/-- `strIncludes s sub` is `s.includes(sub)`: substring containment. -/
def strIncludes (s sub : String) : Bool := hasSub s.data sub.data

/-! ## JSON values and the JavaScript operations on them -/

/-- Untyped JSON-like values as delivered by the HTTP gateway. `undefined`
and `null` are merged into `Js.null`: every place the code distinguishes a
missing value it does so through truthiness or `hasOwnProperty`, on which
the two agree for the shapes in play. -/
inductive Js where
  | null
  | bool (b : Bool)
  | num (n : Int)
  | str (s : String)
  | arr (items : List Js)
  | obj (fields : List (String × Js))
  deriving Repr

/-- JavaScript truthiness: `false`, `0`, `""`, `null`/`undefined` are falsy;
arrays and objects (even empty) are truthy. -/
def Js.truthy : Js → Bool
  | .null => false
  | .bool b => b
  | .num n => n != 0
  | .str s => s != ""
  | .arr _ => true
  | .obj _ => true

/-- `Array.isArray`. -/
def Js.isArr : Js → Bool
  | .arr _ => true
  | _ => false

/-- `typeof v === "object"` (holds for objects, arrays and `null`). -/
def Js.isObjectType : Js → Bool
  | .obj _ => true
  | .arr _ => true
  | .null => true
  | _ => false

/-- `typeof v === "string"`. -/
def Js.isStr : Js → Bool
  | .str _ => true
  | _ => false

/-- Property access `v.k`: the first binding of `k` in an object, else
`undefined` (merged into `Js.null`). -/
def Js.get : Js → String → Js
  | .obj fields, k =>
    match fields.find? (fun p => p.1 == k) with
    | some p => p.2
    | none => .null
  | _, _ => .null

/-- `v.hasOwnProperty(k)` for the object values the services sniff. -/
def Js.hasOwn : Js → String → Bool
  | .obj fields, k => fields.any (fun p => p.1 == k)
  | _, _ => false

/-- `Object.values(v)`: the field values of an object in declaration
order. -/
def Js.ownValues : Js → List Js
  | .obj fields => fields.map (fun p => p.2)
  | _ => []

/-- The JavaScript `a || b` default idiom: `a` when truthy, else `b`. -/
def Js.orElse (v d : Js) : Js := if v.truthy then v else d

/-- The element list of an array value, `[]` for anything else. -/
def Js.toList : Js → List Js
  | .arr items => items
  | _ => []

/-- Cast to number as the component's typed reads do; non-numbers give 0. -/
def Js.toInt : Js → Int
  | .num n => n
  | _ => 0

/-- Cast to string as the component's typed reads do; non-strings give
the empty string. -/
def Js.toStr : Js → String
  | .str s => s
  | _ => ""

/-- Cast to an optional number: the model of a `number | null` field. -/
def Js.toOptInt : Js → Option Int
  | .num n => some n
  | _ => none

/-- Cast to an optional string: the model of a `string | null` field. -/
def Js.toOptStr : Js → Option String
  | .str s => some s
  | _ => none

/-! ## The four response-normalization sites

Each site turns an arbitrary gateway response into the value its `groups`
/ `recordsArray` variable ends up holding. All return a `Js` because the
service site can let a non-array `$values` / `data` field through. -/

namespace GroupsService

/-- GroupsService.getGroups's `map` operator (GroupsService.ts lines
39-59): bare array, else for truthy objects `$values` (by key presence,
defaulted with `|| []`), else `data` likewise, else `Object.values`;
non-objects leave the initial `[]`. -/
def normalizeGroups (response : Js) : Js :=
  if response.isArr then response
  else if response.truthy && response.isObjectType then
    if response.hasOwn "$values" then (response.get "$values").orElse (Js.arr [])
    else if response.hasOwn "data" then (response.get "data").orElse (Js.arr [])
    else Js.arr response.ownValues
  else Js.arr []

/-- The observable GroupsService.getGroups delivers to its subscriber,
as a function of the HTTP outcome: the normalized body on success, and —
through the `catchError` returning `of([])` (lines 61-64) — a *next*
emission of the empty array on any transport error. No error is ever
delivered. -/
def getGroups (httpResult : Except Js Js) : Except Js Js :=
  match httpResult with
  | .ok response => .ok (normalizeGroups response)
  | .error _ => .ok (Js.arr [])

end GroupsService

namespace RecordsComponent

/-- The record-fetch normalization in RecordsComponent.getRecords (lines
140-147): bare array, `$values` array, `data` array, else the initial
`[]`. -/
def normalizeRecords (data : Js) : Js :=
  if data.isArr then data
  else if data.truthy && (data.get "$values").isArr then data.get "$values"
  else if data.truthy && (data.get "data").isArr then data.get "data"
  else Js.arr []

/-- The group normalization nested inside RecordsComponent.getRecords
(lines 158-164): bare array or `$values` array only. -/
def normalizeGroupsNested (groupsResponse : Js) : Js :=
  if groupsResponse.isArr then groupsResponse
  else if groupsResponse.truthy && (groupsResponse.get "$values").isArr then
    groupsResponse.get "$values"
  else Js.arr []

/-- The group normalization in RecordsComponent.getGroups (lines 242-255):
bare array, `$values` array, `data` array, else `[]` plus a logged
warning. -/
def normalizeGroupsComponent (response : Js) : Js :=
  if response.isArr then response
  else if (response.get "$values").isArr then response.get "$values"
  else if (response.get "data").isArr then response.get "data"
  else Js.arr []

/-! ## The records data model and component state -/

/-- The IRecord shape as the component holds it after processing. `inCart`
and `amount` are consumed only through truthiness and `|| 0`, so the
undefined states collapse onto `false` and `0`. -/
structure IRecord where
  idRecord : Int
  titleRecord : String
  yearOfPublication : Option Int
  imageRecord : Option String
  photo : Option String
  photoName : Option String
  price : Int
  stock : Int
  discontinued : Bool
  groupId : Option Int
  groupName : String
  nameGroup : String
  inCart : Bool := false
  amount : Nat := 0
  deriving Repr, DecidableEq

/-- A group row as the join in getRecords consumes it: `idGroup` plus a
`nameGroup` that may be missing (`none`) on malformed rows. -/
structure Group where
  idGroup : Int
  nameGroup : Option String
  deriving Repr, DecidableEq

/-- The typed view of a group row coming out of the nested group
normalization. -/
def groupOfJs (g : Js) : Group :=
  { idGroup := (g.get "idGroup").toInt
    nameGroup := (g.get "nameGroup").toOptStr }

/-- A JavaScript array object: its reference identity (`tag`) together
with its current contents. A fresh allocation gets a tag never used
before; in-place mutation keeps the tag and changes the items. -/
structure TArr where
  tag : Nat
  items : List IRecord
  deriving Repr, DecidableEq

/-- The mutable fields of RecordsComponent that the reconciliation layer
touches, plus the array-identity allocator `fresh` (all live tags are
below it). -/
structure CState where
  records : TArr
  filteredRecords : TArr
  groups : List Js
  visibleError : Bool
  errorMessage : String
  searchText : String
  fresh : Nat
  deriving Repr

/-- Tags are allocated below `fresh`: true of the initial field values and
preserved by every handler. -/
def stateWF (s : CState) : Prop :=
  s.records.tag < s.fresh ∧ s.filteredRecords.tag < s.fresh

/-- The component's initial field values (lines 48-56). -/
def initialState : CState :=
  { records := ⟨0, []⟩
    filteredRecords := ⟨1, []⟩
    groups := []
    visibleError := false
    errorMessage := ""
    searchText := ""
    fresh := 2 }

/-! ## Group-name resolution and record processing (getRecords lines
167-194) -/

/-- The group-name join of getRecords lines 184-191: nothing for a missing
`groupId`, the first group whose `idGroup` strictly equals it (empty
string when none matches), and that group's `nameGroup || ''`. -/
def resolveGroupName (groupId : Option Int) (groups : List Group) : String :=
  match groupId with
  | none => ""
  | some gid =>
    match groups.find? (fun g => g.idGroup == gid) with
    | none => ""
    | some g =>
      match g.nameGroup with
      | some s => s
      | none => ""

/-- One record of `processedRecords` (lines 169-193): every field
defaulted with the `||` idiom — note `yearOfPublication || null` and
`groupId || null` turn a 0 into an absent value — then the group name
written into both `groupName` and `nameGroup`. -/
def processRecord (groups : List Group) (record : Js) : IRecord :=
  let groupId := ((record.get "groupId").orElse Js.null).toOptInt
  let name := resolveGroupName groupId groups
  { idRecord := ((record.get "idRecord").orElse (Js.num 0)).toInt
    titleRecord := ((record.get "titleRecord").orElse (Js.str "")).toStr
    yearOfPublication := ((record.get "yearOfPublication").orElse Js.null).toOptInt
    imageRecord := ((record.get "imageRecord").orElse Js.null).toOptStr
    photo := ((record.get "photo").orElse Js.null).toOptStr
    photoName := ((record.get "photoName").orElse Js.null).toOptStr
    price := ((record.get "price").orElse (Js.num 0)).toInt
    stock := ((record.get "stock").orElse (Js.num 0)).toInt
    discontinued := (record.get "discontinued").truthy
    groupId := groupId
    groupName := name
    nameGroup := name }

/-- The unchecked TypeScript cast `this.records = recordsArray` in the
nested group-error branch (lines 202-203): the raw rows are read into the
IRecord shape without the `||` defaulting of `processRecord`. -/
def castRecord (record : Js) : IRecord :=
  { idRecord := (record.get "idRecord").toInt
    titleRecord := (record.get "titleRecord").toStr
    yearOfPublication := (record.get "yearOfPublication").toOptInt
    imageRecord := (record.get "imageRecord").toOptStr
    photo := (record.get "photo").toOptStr
    photoName := (record.get "photoName").toOptStr
    price := (record.get "price").toInt
    stock := (record.get "stock").toInt
    discontinued := (record.get "discontinued").truthy
    groupId := (record.get "groupId").toOptInt
    groupName := (record.get "groupName").toStr
    nameGroup := (record.get "nameGroup").toStr }

/-! ## Error reporting (controlError, lines 382-390) -/

/-- controlError's message extraction: a truthy object `err.error` with a
truthy `message` field wins, then a string `err.error` body, else the
generic fallback. -/
def controlError (err : Js) : String :=
  if (err.get "error").truthy && (err.get "error").isObjectType
      && ((err.get "error").get "message").truthy then
    ((err.get "error").get "message").toStr
  else if (err.get "error").isStr then
    (err.get "error").toStr
  else
    "An unexpected error has occurred"

/-! ## The fetch flows -/

/-- RecordsComponent.getGroups's subscriber (lines 238-266), as a function
of what the observable delivers: on next, `this.groups` becomes the
normalized array; on error, `visibleError` is raised and controlError
fills `errorMessage`. -/
def getGroupsHandler (result : Except Js Js) (s : CState) : CState :=
  match result with
  | .ok response => { s with groups := (normalizeGroupsComponent response).toList }
  | .error err =>
    { s with visibleError := true, errorMessage := controlError err }

/-- RecordsComponent.getGroups as wired in the program: the subscriber
attached to GroupsService.getGroups, itself fed by the raw HTTP
outcome. -/
def getGroupsFlow (httpResult : Except Js Js) (s : CState) : CState :=
  getGroupsHandler (GroupsService.getGroups httpResult) s

/-- RecordsComponent.getRecords's subscriber pair (lines 136-213) over the
record-fetch outcome and whatever the nested group observable delivers.
On record-fetch error: `visibleError` plus controlError. On success the
records are normalized, then the nested group subscription either joins
group names through `processRecord` and publishes two freshly allocated
arrays (lines 196-197), or — on a delivered group error — publishes the
raw cast rows, again as two fresh arrays (lines 202-203). (The
`updateStock` seeding of lines 150-154 calls an external service and
leaves the component state untouched.) -/
def getRecordsInner (recResult : Except Js Js) (groupsResult : Except Js Js)
    (s : CState) : CState :=
  match recResult with
  | .error err =>
    { s with visibleError := true, errorMessage := controlError err }
  | .ok data =>
    let recordsArray := (normalizeRecords data).toList
    match groupsResult with
    | .ok groupsResponse =>
      let groups := (normalizeGroupsNested groupsResponse).toList.map groupOfJs
      let processed := recordsArray.map (processRecord groups)
      { s with records := ⟨s.fresh, processed⟩
               filteredRecords := ⟨s.fresh + 1, processed⟩
               fresh := s.fresh + 2 }
    | .error _ =>
      let raw := recordsArray.map castRecord
      { s with records := ⟨s.fresh, raw⟩
               filteredRecords := ⟨s.fresh + 1, raw⟩
               fresh := s.fresh + 2 }

/-- getRecords as wired in the program: the nested observable is
GroupsService.getGroups over the raw HTTP outcome of the group call. -/
def getRecordsFlow (recResult groupsHttp : Except Js Js) (s : CState) : CState :=
  getRecordsInner recResult (GroupsService.getGroups groupsHttp) s

/-! ## The event-channel subscriptions (constructor, lines 96-127) -/

/-- A stock channel payload. -/
structure StockUpdate where
  recordId : Int
  newStock : Int
  deriving Repr, DecidableEq

/-- The per-array body of the stock subscription: matching entries are
replaced by a shallow copy carrying the new stock, the rest pass through
unchanged. -/
def applyStockToItems (recordId : Int) (newStock : Int)
    (items : List IRecord) : List IRecord :=
  items.map fun record =>
    if record.idRecord == recordId then { record with stock := newStock } else record

/-- The stockUpdate$ subscription (lines 96-112): falsy payloads return
early; otherwise both `records` and `filteredRecords` are rebound to new
`map` results (fresh array identities). -/
def stockHandler (update : Option StockUpdate) (s : CState) : CState :=
  match update with
  | none => s
  | some u =>
    { s with
        records := ⟨s.fresh, applyStockToItems u.recordId u.newStock s.records.items⟩
        filteredRecords :=
          ⟨s.fresh + 1, applyStockToItems u.recordId u.newStock s.filteredRecords.items⟩
        fresh := s.fresh + 2 }

/-- A sequence of stock events applied in emission order. -/
def applyStockEvents (events : List StockUpdate) (s : CState) : CState :=
  events.foldl (fun t u => stockHandler (some u) t) s

/-- A cart channel row, `{idRecord, amount}` with a possibly missing
amount (read through `|| 0`). -/
structure CartItem where
  idRecord : Int
  amount : Option Nat
  deriving Repr, DecidableEq

/-- The cart$ subscription (lines 114-127): each entry of `records` is
mutated in place (`forEach`) — the `records` array object keeps its
identity — then `filteredRecords` is rebound to a fresh spread copy of
`records`. -/
def cartHandler (cartItems : List CartItem) (s : CState) : CState :=
  let newItems := s.records.items.map fun record =>
    match cartItems.find? (fun item => item.idRecord == record.idRecord) with
    | some item => { record with inCart := true, amount := item.amount.getD 0 }
    | none => { record with inCart := false, amount := 0 }
  { s with records := ⟨s.records.tag, newItems⟩
           filteredRecords := ⟨s.fresh, newItems⟩
           fresh := s.fresh + 1 }

/-! ## The search filter (filterRecords, lines 216-232) -/

/-- The filter predicate over one record: case-insensitive substring match
of the search term against the title, the resolved group name, or the
decimal string of the publication year (absent year never matches). -/
def recordMatches (searchTerm : String) (record : IRecord) : Bool :=
  strIncludes (jsToLower record.titleRecord) searchTerm ||
  strIncludes (jsToLower record.groupName) searchTerm ||
  (match record.yearOfPublication with
   | some y => strIncludes (toString y) searchTerm
   | none => false)

/-- filterRecords: a trim-empty search text rebinds `filteredRecords` to a
fresh spread copy of `records`; otherwise the term is the *untrimmed*
lowercased text and `filteredRecords` becomes a fresh `Array.filter`
result over `records`. -/
def filterRecords (s : CState) : CState :=
  if jsTrim s.searchText == "" then
    { s with filteredRecords := ⟨s.fresh, s.records.items⟩, fresh := s.fresh + 1 }
  else
    let searchTerm := jsToLower s.searchText
    { s with
        filteredRecords := ⟨s.fresh, s.records.items.filter (recordMatches searchTerm)⟩
        fresh := s.fresh + 1 }

/-! ## The optimistic cart mutator (addToCart / removeFromCart, lines
392-432)

The record argument is one of the entries the template iterates, aliased
into `records`; the mutation of that object is embedded as the in-place
update of the entries of `records` carrying its `idRecord`. `pending`
describes the state observed after the call is issued but before the
network outcome arrives: the subscription's continuations have not run. -/

/-- The three observation points of a network call made through
`subscribe`. -/
inductive NetPhase where
  | pending
  | success
  | failure
  deriving Repr, DecidableEq

/-- addToCart (lines 392-411): no user email means an early return. The
*success* continuation mutates the record in place (`inCart = true`,
`amount = (amount || 0) + 1`) and rebinds `filteredRecords` to a fresh
copy of `records`; the *error* continuation resets the record to
`inCart = false`, `amount = 0` and rebinds likewise. Nothing runs before
the outcome arrives. -/
def addToCart (email : Option String) (phase : NetPhase) (rid : Int)
    (s : CState) : CState :=
  match email with
  | none => s
  | some _ =>
    match phase with
    | .pending => s
    | .success =>
      let newItems := s.records.items.map fun r =>
        if r.idRecord == rid then { r with inCart := true, amount := r.amount + 1 } else r
      { s with records := ⟨s.records.tag, newItems⟩
               filteredRecords := ⟨s.fresh, newItems⟩
               fresh := s.fresh + 1 }
    | .failure =>
      let newItems := s.records.items.map fun r =>
        if r.idRecord == rid then { r with inCart := false, amount := 0 } else r
      { s with records := ⟨s.records.tag, newItems⟩
               filteredRecords := ⟨s.fresh, newItems⟩
               fresh := s.fresh + 1 }

/-- removeFromCart (lines 413-432): early return unless an email is
present and the record is in the cart. The *success* continuation sets
`amount = max(0, amount - 1)` and then `inCart = amount > 0` from the new
amount; the *error* continuation sets `amount = (amount || 0) + 1` and
forces `inCart = true`; both rebind `filteredRecords` to a fresh copy of
`records`. -/
def removeFromCart (email : Option String) (phase : NetPhase) (rid : Int)
    (s : CState) : CState :=
  match email with
  | none => s
  | some _ =>
    match s.records.items.find? (fun r => r.idRecord == rid) with
    | none => s
    | some r0 =>
      if !r0.inCart then s
      else
        match phase with
        | .pending => s
        | .success =>
          let newItems := s.records.items.map fun r =>
            if r.idRecord == rid then
              { r with amount := r.amount - 1, inCart := decide (r.amount - 1 > 0) }
            else r
          { s with records := ⟨s.records.tag, newItems⟩
                   filteredRecords := ⟨s.fresh, newItems⟩
                   fresh := s.fresh + 1 }
        | .failure =>
          let newItems := s.records.items.map fun r =>
            if r.idRecord == rid then { r with amount := r.amount + 1, inCart := true } else r
          { s with records := ⟨s.records.tag, newItems⟩
                   filteredRecords := ⟨s.fresh, newItems⟩
                   fresh := s.fresh + 1 }

/-- The search predicate as the specification words it: the lowercased
search text is a substring of the lowercased title, of the lowercased
group name, or of the decimal string form of the publication year. Stated
separately from `recordMatches` so the filter can be compared against the
specification's wording. -/
def specSearchMatches (searchText : String) (record : IRecord) : Bool :=
  strIncludes (jsToLower record.titleRecord) (jsToLower searchText) ||
  strIncludes (jsToLower record.groupName) (jsToLower searchText) ||
  (match record.yearOfPublication with
   | some y => strIncludes (toString y) (jsToLower searchText)
   | none => false)

/-! ## Concrete example values used to exercise the definitions -/

/-- A record as the screen holds it: id 1, published 1997, resolved group
name `"Rock"`, not in the cart. -/
def exRec1 : IRecord :=
  { idRecord := 1, titleRecord := "Abbey Road", yearOfPublication := some 1997
    imageRecord := none, photo := none, photoName := none
    price := 10, stock := 2, discontinued := false
    groupId := some 9, groupName := "Rock", nameGroup := "Rock" }

/-- A record with identity 7 and stock 1, for the stock-event scenario. -/
def exRec7 : IRecord :=
  { idRecord := 7, titleRecord := "B", yearOfPublication := none
    imageRecord := none, photo := none, photoName := none
    price := 5, stock := 1, discontinued := false
    groupId := none, groupName := "", nameGroup := "" }

/-- A record with identity 3 held in the cart with amount 1, for the
remove-from-cart scenarios. -/
def exRecCart : IRecord :=
  { idRecord := 3, titleRecord := "C", yearOfPublication := none
    imageRecord := none, photo := none, photoName := none
    price := 5, stock := 4, discontinued := false
    groupId := none, groupName := "", nameGroup := ""
    inCart := true, amount := 1 }

/-- A screen state holding `exRec1` in both arrays. -/
def exState1 : CState :=
  { records := ⟨0, [exRec1]⟩, filteredRecords := ⟨1, [exRec1]⟩
    groups := [], visibleError := false, errorMessage := ""
    searchText := "", fresh := 2 }

/-- A screen state holding `exRec7` in both arrays. -/
def exState7 : CState :=
  { records := ⟨0, [exRec7]⟩, filteredRecords := ⟨1, [exRec7]⟩
    groups := [], visibleError := false, errorMessage := ""
    searchText := "", fresh := 2 }

/-- A screen state holding `exRecCart` in both arrays. -/
def exStateCart : CState :=
  { records := ⟨0, [exRecCart]⟩, filteredRecords := ⟨1, [exRecCart]⟩
    groups := [], visibleError := false, errorMessage := ""
    searchText := "", fresh := 2 }

end RecordsComponent

/-- A transport error whose body carries a structured message. -/
def exErr : Js := Js.obj [("error", Js.obj [("message", Js.str "boom")])]

/-- A response matching none of the three tolerated envelope shapes: an
object whose only key is neither `$values` nor `data`. -/
def exUnrecognized : Js := Js.obj [("foo", Js.arr [Js.num 1])]

/-! # Theorems -/

open RecordsComponent

/-- Claim C9: group-name resolution yields `""` for an absent `groupId`,
yields `""` without failing when no group matches, yields the matching
group's `nameGroup` (defaulted to `""` when that name is missing) when a
match exists, and record processing writes the same resolved value into
both `groupName` and `nameGroup`. -/
theorem C9_group_name_resolution :
    (∀ groups : List Group, resolveGroupName none groups = "") ∧
    (∀ (gid : Int) (groups : List Group),
        groups.find? (fun g => g.idGroup == gid) = none →
        resolveGroupName (some gid) groups = "") ∧
    (∀ (gid : Int) (groups : List Group) (g : Group),
        groups.find? (fun g => g.idGroup == gid) = some g →
        resolveGroupName (some gid) groups = g.nameGroup.getD "") ∧
    (∀ (groups : List Group) (record : Js),
        (processRecord groups record).groupName =
          (processRecord groups record).nameGroup) := by
  refine ⟨fun groups => rfl, fun gid groups h => ?_, fun gid groups g h => ?_,
    fun groups record => rfl⟩
  · simp only [resolveGroupName, h]
  · simp only [resolveGroupName, h]
    cases g.nameGroup <;> rfl

/-- Claim C9 witness: the three resolution cases at concrete inputs. -/
theorem C9_witness :
    resolveGroupName none [⟨9, some "Rock"⟩] = "" ∧
    resolveGroupName (some 5) [⟨9, some "Rock"⟩] = "" ∧
    resolveGroupName (some 9) [⟨9, some "Rock"⟩] = "Rock" ∧
    (processRecord [⟨9, some "Rock"⟩] (Js.obj [("idRecord", Js.num 1), ("groupId", Js.num 9)])).groupName =
      (processRecord [⟨9, some "Rock"⟩] (Js.obj [("idRecord", Js.num 1), ("groupId", Js.num 9)])).nameGroup :=
  ⟨C9_group_name_resolution.1 [⟨9, some "Rock"⟩],
   C9_group_name_resolution.2.1 5 [⟨9, some "Rock"⟩] (by decide),
   C9_group_name_resolution.2.2.1 9 [⟨9, some "Rock"⟩] ⟨9, some "Rock"⟩ (by decide),
   C9_group_name_resolution.2.2.2 [⟨9, some "Rock"⟩]
     (Js.obj [("idRecord", Js.num 1), ("groupId", Js.num 9)])⟩

/-- Claim C10: GroupsService.getGroups never delivers an error — every
transport failure is replaced by a next-emission of the empty list — so
the component's group-fetch error continuation is unreachable: wired
through the service, a failing transport leaves `visibleError` and
`errorMessage` untouched and behaves as the next branch on `[]`. -/
theorem C10_service_never_errors :
    (∀ httpResult : Except Js Js, ∃ groups, GroupsService.getGroups httpResult = .ok groups) ∧
    (∀ err : Js, GroupsService.getGroups (.error err) = .ok (Js.arr [])) ∧
    (∀ (err : Js) (s : CState),
        getGroupsFlow (.error err) s = getGroupsHandler (.ok (Js.arr [])) s ∧
        (getGroupsFlow (.error err) s).visibleError = s.visibleError ∧
        (getGroupsFlow (.error err) s).errorMessage = s.errorMessage) := by
  refine ⟨fun h => ?_, fun err => rfl, fun err s => ⟨rfl, rfl, rfl⟩⟩
  cases h with
  | ok r => exact ⟨_, rfl⟩
  | error e => exact ⟨_, rfl⟩

/-- Claim C6 counterexample: the group normalization nested inside the
record fetch does not tolerate the `{data: [...]}` wrapper — it yields the
empty sequence where the bare sequence of the same logical content yields
the content — so the three envelope encodings are not identical at every
normalization site. -/
theorem C6_counterexample :
    normalizeGroupsNested (Js.obj [("data", Js.arr [Js.num 1])]) = Js.arr [] ∧
    normalizeGroupsNested (Js.arr [Js.num 1]) = Js.arr [Js.num 1] ∧
    Js.arr [] ≠ Js.arr [Js.num 1] := by
  refine ⟨rfl, rfl, ?_⟩
  simp

/-- Claim C6 as amended: for any logical list, the records path, the
component group path and the service group path each normalize all three
envelope encodings to the same output; the nested group normalization
inside the record fetch agrees on the bare sequence and the `$values`
wrapper but maps the `{data: [...]}` wrapper to the empty sequence. -/
theorem C6_amended (l : List Js) :
    (normalizeRecords (Js.arr l) = Js.arr l ∧
     normalizeRecords (Js.obj [("$values", Js.arr l)]) = Js.arr l ∧
     normalizeRecords (Js.obj [("data", Js.arr l)]) = Js.arr l) ∧
    (normalizeGroupsComponent (Js.arr l) = Js.arr l ∧
     normalizeGroupsComponent (Js.obj [("$values", Js.arr l)]) = Js.arr l ∧
     normalizeGroupsComponent (Js.obj [("data", Js.arr l)]) = Js.arr l) ∧
    (GroupsService.normalizeGroups (Js.arr l) = Js.arr l ∧
     GroupsService.normalizeGroups (Js.obj [("$values", Js.arr l)]) = Js.arr l ∧
     GroupsService.normalizeGroups (Js.obj [("data", Js.arr l)]) = Js.arr l) ∧
    (normalizeGroupsNested (Js.arr l) = Js.arr l ∧
     normalizeGroupsNested (Js.obj [("$values", Js.arr l)]) = Js.arr l ∧
     normalizeGroupsNested (Js.obj [("data", Js.arr l)]) = Js.arr []) :=
  ⟨⟨rfl, rfl, rfl⟩, ⟨rfl, rfl, rfl⟩, ⟨rfl, rfl, rfl⟩, ⟨rfl, rfl, rfl⟩⟩

/-- Claim C4 counterexample: on a value matching none of the three
envelope shapes, the records normalization produces the empty sequence
(not the object's own values), while the service's groups normalization
falls back to enumerating the object's own values (not the empty
sequence) — the claim has the two paths swapped. -/
theorem C4_counterexample :
    normalizeRecords exUnrecognized = Js.arr [] ∧
    GroupsService.normalizeGroups exUnrecognized = Js.arr [Js.arr [Js.num 1]] ∧
    Js.arr [Js.arr [Js.num 1]] ≠ Js.arr [] := by
  refine ⟨rfl, rfl, ?_⟩
  simp

/-- Claim C4 as amended: on a value matching none of the three tolerated
envelope shapes, the component's records normalization and both component
group normalizations produce the empty sequence; the GroupsService group
normalization falls back to enumerating the object's own values for an
object carrying neither a `$values` nor a `data` key, and produces the
empty sequence for non-object values. -/
theorem C4_amended :
    (∀ v : Js, v.isArr = false → (v.get "$values").isArr = false →
        (v.get "data").isArr = false →
        normalizeRecords v = Js.arr [] ∧
        normalizeGroupsComponent v = Js.arr [] ∧
        normalizeGroupsNested v = Js.arr []) ∧
    (∀ fields : List (String × Js),
        (Js.obj fields).hasOwn "$values" = false →
        (Js.obj fields).hasOwn "data" = false →
        GroupsService.normalizeGroups (Js.obj fields) =
          Js.arr (fields.map (fun p => p.2))) ∧
    (∀ v : Js, v.isObjectType = false → GroupsService.normalizeGroups v = Js.arr []) := by
  refine ⟨fun v h1 h2 h3 => ?_, fun fields h1 h2 => ?_, fun v h => ?_⟩
  · refine ⟨?_, ?_, ?_⟩ <;>
      simp only [normalizeRecords, normalizeGroupsComponent, normalizeGroupsNested,
        h1, h2, h3, Bool.false_eq_true, if_false, Bool.and_false]
  · simp only [GroupsService.normalizeGroups, Js.isArr, Js.truthy, Js.isObjectType,
      Bool.false_eq_true, if_false, h1, h2, Bool.and_self, if_true, Js.ownValues]
  · have hArr : v.isArr = false := by
      cases v <;> simp_all [Js.isArr, Js.isObjectType]
    simp only [GroupsService.normalizeGroups, hArr, h, Bool.false_eq_true, if_false,
      Bool.and_false]

/-- Claim C4 witness: the amended statement at the concrete unrecognized
object and at a non-object value. -/
theorem C4_witness :
    (normalizeRecords exUnrecognized = Js.arr [] ∧
     normalizeGroupsComponent exUnrecognized = Js.arr [] ∧
     normalizeGroupsNested exUnrecognized = Js.arr []) ∧
    GroupsService.normalizeGroups exUnrecognized = Js.arr [Js.arr [Js.num 1]] ∧
    GroupsService.normalizeGroups (Js.num 4) = Js.arr [] :=
  ⟨C4_amended.1 exUnrecognized rfl rfl rfl,
   C4_amended.2.1 [("foo", Js.arr [Js.num 1])] rfl rfl,
   C4_amended.2.2 (Js.num 4) rfl⟩

/-- A member of the stock-updated list that carries the event's record id
carries the event's stock value. -/
lemma applyStock_mem (rid ns : Int) (items : List IRecord) :
    ∀ r ∈ applyStockToItems rid ns items, r.idRecord = rid → r.stock = ns := by
  intro r hr hid
  rcases List.mem_map.mp hr with ⟨r0, _hr0, hv⟩
  by_cases hb : r0.idRecord = rid
  · have : r = { r0 with stock := ns } := by rw [← hv]; simp [hb]
    rw [this]
  · have : r = r0 := by rw [← hv]; simp [hb]
    rw [this] at hid
    exact absurd hid hb

/-- Unfolding one step of a stock-event sequence. -/
lemma applyStockEvents_cons (u : StockUpdate) (es : List StockUpdate) (s : CState) :
    applyStockEvents (u :: es) s = applyStockEvents es (stockHandler (some u) s) := rfl

/-- After a whole sequence of stock events targeting one record id, every
record carrying that id holds the last event's stock value. -/
lemma applyStockEvents_last (events : List StockUpdate) :
    ∀ (s : CState) (id : Int) (ulast : StockUpdate),
      events.getLast? = some ulast → (∀ u ∈ events, u.recordId = id) →
      ∀ r ∈ (applyStockEvents events s).records.items,
        r.idRecord = id → r.stock = ulast.newStock := by
  induction events with
  | nil => intro s id ulast h; simp at h
  | cons u es ih =>
    intro s id ulast hlast hall r hr hid
    cases es with
    | nil =>
      simp only [List.getLast?_singleton, Option.some.injEq] at hlast
      subst hlast
      have hu : u.recordId = id := hall u (by simp)
      exact applyStock_mem u.recordId u.newStock s.records.items r hr (hu ▸ hid)
    | cons e' es' =>
      have hlast' : (e' :: es').getLast? = some ulast := by
        rwa [List.getLast?_cons_cons] at hlast
      exact ih (stockHandler (some u) s) id ulast hlast'
        (fun v hv => hall v (List.mem_cons_of_mem _ hv)) r hr hid

/-- Claim C7: a stock event with an empty payload is a no-op; otherwise in
both `records` and `filteredRecords` every entry whose `idRecord` matches
is replaced by a shallow copy carrying the new stock and every other
entry passes through unchanged; and a sequence of events for one record
id, applied in emission order, leaves that record's stock at the last
event's value. -/
theorem C7_stock_event_application :
    (∀ s : CState, stockHandler none s = s) ∧
    (∀ (u : StockUpdate) (s : CState),
        ((stockHandler (some u) s).records.items.length = s.records.items.length ∧
          ∀ i : Fin s.records.items.length,
            (stockHandler (some u) s).records.items[i.val]? =
              some (if (s.records.items.get i).idRecord = u.recordId
                    then { s.records.items.get i with stock := u.newStock }
                    else s.records.items.get i)) ∧
        ((stockHandler (some u) s).filteredRecords.items.length =
            s.filteredRecords.items.length ∧
          ∀ i : Fin s.filteredRecords.items.length,
            (stockHandler (some u) s).filteredRecords.items[i.val]? =
              some (if (s.filteredRecords.items.get i).idRecord = u.recordId
                    then { s.filteredRecords.items.get i with stock := u.newStock }
                    else s.filteredRecords.items.get i))) ∧
    (∀ (events : List StockUpdate) (s : CState) (id : Int) (ulast : StockUpdate),
        events.getLast? = some ulast → (∀ u ∈ events, u.recordId = id) →
        ∀ r ∈ (applyStockEvents events s).records.items,
          r.idRecord = id → r.stock = ulast.newStock) := by
  refine ⟨fun s => rfl, fun u s => ?_, applyStockEvents_last⟩
  have hpt : ∀ (items : List IRecord) (i : Fin items.length),
      (applyStockToItems u.recordId u.newStock items)[i.val]? =
        some (if (items.get i).idRecord = u.recordId
              then { items.get i with stock := u.newStock }
              else items.get i) := by
    intro items i
    have hlen : i.val < items.length := i.isLt
    simp only [applyStockToItems, List.getElem?_map,
      List.getElem?_eq_getElem hlen, Option.map_some, List.get_eq_getElem]
    by_cases hb : items[i.val].idRecord = u.recordId <;> simp [hb]
  exact ⟨⟨by simp [stockHandler, applyStockToItems], fun i => hpt s.records.items i⟩,
    ⟨by simp [stockHandler, applyStockToItems], fun i => hpt s.filteredRecords.items i⟩⟩

/-- Claim C7 witness: the spec's scenario — stock events `(7, 5)` then
`(7, 3)` applied in order leave record 7 at stock 3. -/
theorem C7_witness :
    (({ exRec7 with stock := 3 } : IRecord) ∈
        (applyStockEvents [⟨7, 5⟩, ⟨7, 3⟩] exState7).records.items) ∧
    ({ exRec7 with stock := 3 } : IRecord).idRecord = 7 ∧
    ({ exRec7 with stock := 3 } : IRecord).stock = 3 := by
  have hmem : ({ exRec7 with stock := 3 } : IRecord) ∈
      (applyStockEvents [⟨7, 5⟩, ⟨7, 3⟩] exState7).records.items := by decide
  exact ⟨hmem, rfl,
    C7_stock_event_application.2.2 [⟨7, 5⟩, ⟨7, 3⟩] exState7 7 ⟨7, 3⟩ rfl (by decide)
      _ hmem rfl⟩

/-- Claim C8: with trim-empty search text the filter republishes a copy of
`records` in original order (a fresh array object); otherwise it keeps
exactly the records matched by the specification's predicate — lowercased
search text as substring of lowercased title, lowercased group name, or
the decimal year string — in original order; and search text `"97"`
matches a record published in 1997. -/
theorem C8_search_filter (s : CState) :
    (jsTrim s.searchText = "" →
        (filterRecords s).filteredRecords.items = s.records.items ∧
        (stateWF s → (filterRecords s).filteredRecords.tag ≠ s.records.tag)) ∧
    (jsTrim s.searchText ≠ "" →
        (filterRecords s).filteredRecords.items =
          s.records.items.filter (specSearchMatches s.searchText)) ∧
    List.Sublist (filterRecords s).filteredRecords.items s.records.items ∧
    specSearchMatches "97" exRec1 = true := by
  refine ⟨fun h => ⟨?_, fun hWF => ?_⟩, fun h => ?_, ?_, by decide⟩
  · simp [filterRecords, h]
  · have : (filterRecords s).filteredRecords.tag = s.fresh := by
      simp [filterRecords, h]
    rw [this]
    exact fun hEq => absurd hWF.1 (by omega)
  · have hb : (jsTrim s.searchText == "") = false := by
      simpa using h
    simp only [filterRecords, hb, Bool.false_eq_true, if_false]
    rfl
  · by_cases h : jsTrim s.searchText = ""
    · simp [filterRecords, h]
    · have hb : (jsTrim s.searchText == "") = false := by
        simpa using h
      simp only [filterRecords, hb, Bool.false_eq_true, if_false]
      exact List.filter_sublist _

/-- Claim C8 witness: the empty search republishes the single-record list
unchanged with a fresh array tag, and search text `"97"` retains the 1997
record. -/
theorem C8_witness :
    (filterRecords exState1).filteredRecords.items = exState1.records.items ∧
    (filterRecords exState1).filteredRecords.tag ≠ exState1.records.tag ∧
    (filterRecords { exState1 with searchText := "97" }).filteredRecords.items =
      ({ exState1 with searchText := "97" } : CState).records.items.filter
        (specSearchMatches "97") ∧
    specSearchMatches "97" exRec1 = true := by
  refine ⟨((C8_search_filter exState1).1 (by decide)).1,
    ((C8_search_filter exState1).1 (by decide)).2 ⟨by decide, by decide⟩,
    (C8_search_filter { exState1 with searchText := "97" }).2.1 (by decide),
    (C8_search_filter exState1).2.2.2⟩

/-- Claim C2: the error continuation of addToCart resets a matching record
to `inCart = false`, `amount = 0` whatever its prior amount, while the
error continuation of removeFromCart adds 1 to the prior amount and
forces `inCart = true`; in particular a record with amount 1 ends at
amount 2 and `inCart = true` after a failed remove. -/
theorem C2_rollback_asymmetry :
    (∀ (e : String) (rid : Int) (s : CState),
        ∀ r ∈ (addToCart (some e) NetPhase.failure rid s).records.items,
          r.idRecord = rid → r.inCart = false ∧ r.amount = 0) ∧
    (∀ (e : String) (rid : Int) (s : CState) (r0 : IRecord),
        s.records.items.find? (fun r => r.idRecord == rid) = some r0 →
        r0.inCart = true →
        ∀ i : Fin s.records.items.length,
          (removeFromCart (some e) NetPhase.failure rid s).records.items[i.val]? =
            some (if (s.records.items.get i).idRecord = rid
                  then { s.records.items.get i with
                           amount := (s.records.items.get i).amount + 1, inCart := true }
                  else s.records.items.get i)) ∧
    (removeFromCart (some "u") NetPhase.failure 3 exStateCart).records.items =
      [{ exRecCart with amount := 2, inCart := true }] := by
  refine ⟨fun e rid s r hr hid => ?_, fun e rid s r0 hfind hin i => ?_, by decide⟩
  · simp only [addToCart] at hr
    rcases List.mem_map.mp hr with ⟨q, _hq, hv⟩
    by_cases hb : q.idRecord = rid
    · have : r = { q with inCart := false, amount := 0 } := by rw [← hv]; simp [hb]
      rw [this]
      exact ⟨rfl, rfl⟩
    · have : r = q := by rw [← hv]; simp [hb]
      rw [this] at hid
      exact absurd hid hb
  · have hlen : i.val < s.records.items.length := i.isLt
    simp only [removeFromCart, hfind, hin, Bool.not_true, Bool.false_eq_true, if_false,
      List.getElem?_map, List.getElem?_eq_getElem hlen, Option.map_some,
      List.get_eq_getElem]
    by_cases hb : s.records.items[i.val].idRecord = rid <;> simp [hb]

/-- Claim C2 witness: at a record with amount 1 the failed remove lands on
amount 2 with `inCart = true`, and the failed add lands on amount 0 with
`inCart = false`. -/
theorem C2_witness :
    ((removeFromCart (some "u") NetPhase.failure 3 exStateCart).records.items[0]? =
        some { exRecCart with amount := 2, inCart := true }) ∧
    (({ exRecCart with inCart := false, amount := 0 } : IRecord) ∈
        (addToCart (some "u") NetPhase.failure 3 exStateCart).records.items) ∧
    ({ exRecCart with inCart := false, amount := 0 } : IRecord).inCart = false ∧
    ({ exRecCart with inCart := false, amount := 0 } : IRecord).amount = 0 := by
  have hmem : ({ exRecCart with inCart := false, amount := 0 } : IRecord) ∈
      (addToCart (some "u") NetPhase.failure 3 exStateCart).records.items := by decide
  have h1 := C2_rollback_asymmetry.2.1 "u" 3 exStateCart exRecCart (by decide) rfl
    ⟨0, by decide⟩
  have h2 := C2_rollback_asymmetry.1 "u" 3 exStateCart _ hmem (by decide)
  exact ⟨by simpa using h1, hmem, h2.1, h2.2⟩

/-- Claim C1 counterexample: with a user identity present, after addToCart
is invoked but before the network call resolves, the component state is
exactly what it was — the record still shows `inCart = false` and
`amount = 0`, not the immediately-applied `inCart = true`, `amount = 1`
the claim requires. -/
theorem C1_counterexample :
    addToCart (some "user") NetPhase.pending 1 exState1 = exState1 ∧
    ((addToCart (some "user") NetPhase.pending 1 exState1).records.items.head?.map
        (fun r => (r.inCart, r.amount))) = some (false, 0) :=
  ⟨rfl, rfl⟩

/-- Claim C1 as amended: with a user identity present, addToCart changes
nothing before the network call resolves; it is the success continuation
that sets `inCart = true`, increments `amount` by 1 and republishes
`filteredRecords` as a freshly allocated copy of `records`; without an
identity nothing happens in any phase. -/
theorem C1_amended :
    (∀ (e : String) (rid : Int) (s : CState),
        addToCart (some e) NetPhase.pending rid s = s) ∧
    (∀ (e : String) (rid : Int) (s : CState),
        (addToCart (some e) NetPhase.success rid s).records.items =
          s.records.items.map (fun r =>
            if r.idRecord == rid then { r with inCart := true, amount := r.amount + 1 }
            else r) ∧
        (addToCart (some e) NetPhase.success rid s).filteredRecords.items =
          (addToCart (some e) NetPhase.success rid s).records.items ∧
        (addToCart (some e) NetPhase.success rid s).filteredRecords.tag = s.fresh ∧
        (addToCart (some e) NetPhase.success rid s).records.tag = s.records.tag) ∧
    (∀ (phase : NetPhase) (rid : Int) (s : CState),
        addToCart none phase rid s = s) :=
  ⟨fun _ _ _ => rfl, fun _ _ _ => ⟨rfl, rfl, rfl, rfl⟩, fun _ _ _ => rfl⟩

/-- Claim C3 counterexample: a cart event leaves the `records` array with
the identity it had before the event was handled (its entries are mutated
in place), and a stock emission with an empty payload leaves both array
identities untouched — so not every channel emission produces two fresh
arrays. -/
theorem C3_counterexample :
    (cartHandler [] exState1).records.tag = exState1.records.tag ∧
    (stockHandler none exState1).records.tag = exState1.records.tag ∧
    (stockHandler none exState1).filteredRecords.tag = exState1.filteredRecords.tag :=
  ⟨rfl, rfl, rfl⟩

/-- Claim C3 as amended: on every fetch completion (with or without a
delivered group error) and on every stock event with a non-empty payload,
both `records` and `filteredRecords` are fresh array objects; on a cart
event `filteredRecords` is fresh but `records` keeps its identity; a
stock emission with an empty payload changes nothing. -/
theorem C3_amended (s : CState) (hWF : stateWF s) :
    (∀ u : StockUpdate,
        (stockHandler (some u) s).records.tag ≠ s.records.tag ∧
        (stockHandler (some u) s).filteredRecords.tag ≠ s.filteredRecords.tag) ∧
    stockHandler none s = s ∧
    (∀ cartItems : List CartItem,
        (cartHandler cartItems s).records.tag = s.records.tag ∧
        (cartHandler cartItems s).filteredRecords.tag ≠ s.filteredRecords.tag) ∧
    (∀ (data : Js) (groupsResult : Except Js Js),
        (getRecordsInner (.ok data) groupsResult s).records.tag ≠ s.records.tag ∧
        (getRecordsInner (.ok data) groupsResult s).filteredRecords.tag ≠
          s.filteredRecords.tag) := by
  obtain ⟨h1, h2⟩ := hWF
  refine ⟨fun u => ⟨?_, ?_⟩, rfl, fun cartItems => ⟨rfl, ?_⟩, fun data groupsResult => ?_⟩
  · simp only [stockHandler]
    omega
  · simp only [stockHandler]
    omega
  · simp only [cartHandler]
    omega
  · cases groupsResult with
    | ok g =>
      constructor <;> (simp only [getRecordsInner]; omega)
    | error e =>
      constructor <;> (simp only [getRecordsInner]; omega)

/-- Claim C3 witness: the amended statement at the concrete one-record
state. -/
theorem C3_witness :
    (stockHandler (some ⟨1, 9⟩) exState1).records.tag ≠ exState1.records.tag ∧
    stockHandler none exState1 = exState1 ∧
    (cartHandler [] exState1).records.tag = exState1.records.tag ∧
    (cartHandler [] exState1).filteredRecords.tag ≠ exState1.filteredRecords.tag ∧
    (getRecordsInner (.ok (Js.arr [])) (.ok (Js.arr [])) exState1).records.tag ≠
      exState1.records.tag := by
  have h := C3_amended exState1 ⟨by decide, by decide⟩
  exact ⟨(h.1 ⟨1, 9⟩).1, h.2.1, (h.2.2.1 []).1, (h.2.2.1 []).2,
    (h.2.2.2 (Js.arr []) (.ok (Js.arr []))).1⟩

/-- Claim C5 counterexample: a failed addToCart transport call leaves the
screen-level `visibleError` flag down and the `errorMessage` empty — not
every transport error surfaces through the error flags. -/
theorem C5_counterexample :
    (addToCart (some "user") NetPhase.failure 1 exState1).visibleError = false ∧
    (addToCart (some "user") NetPhase.failure 1 exState1).errorMessage = "" :=
  ⟨rfl, rfl⟩

/-- Claim C5 as amended: a record-fetch transport error (and the
component's standalone group-fetch error branch) raises `visibleError`
and fills `errorMessage` by controlError's policy — a truthy structured
`error.message` first, then a raw string error body, else the generic
fallback; but a group-fetch transport error wired through GroupsService
never touches the screen error state, and failed cart add/remove calls
leave `visibleError` and `errorMessage` unchanged in every phase. -/
theorem C5_amended :
    (∀ (err : Js) (groupsResult : Except Js Js) (s : CState),
        (getRecordsInner (.error err) groupsResult s).visibleError = true ∧
        (getRecordsInner (.error err) groupsResult s).errorMessage = controlError err) ∧
    (∀ err : Js,
        (((err.get "error").truthy && (err.get "error").isObjectType &&
            ((err.get "error").get "message").truthy) = true →
          controlError err = ((err.get "error").get "message").toStr) ∧
        ((err.get "error").isStr = true →
          controlError err = (err.get "error").toStr) ∧
        (((err.get "error").truthy && (err.get "error").isObjectType &&
            ((err.get "error").get "message").truthy) = false →
          (err.get "error").isStr = false →
          controlError err = "An unexpected error has occurred")) ∧
    (∀ (err : Js) (s : CState),
        (getGroupsHandler (.error err) s).visibleError = true ∧
        (getGroupsHandler (.error err) s).errorMessage = controlError err) ∧
    (∀ (e : Js) (s : CState),
        (getGroupsFlow (.error e) s).visibleError = s.visibleError ∧
        (getGroupsFlow (.error e) s).errorMessage = s.errorMessage) ∧
    (∀ (email : Option String) (phase : NetPhase) (rid : Int) (s : CState),
        (addToCart email phase rid s).visibleError = s.visibleError ∧
        (addToCart email phase rid s).errorMessage = s.errorMessage ∧
        (removeFromCart email phase rid s).visibleError = s.visibleError ∧
        (removeFromCart email phase rid s).errorMessage = s.errorMessage) := by
  refine ⟨fun err groupsResult s => ⟨rfl, rfl⟩, fun err => ⟨fun h => ?_, fun h => ?_, fun h1 h2 => ?_⟩,
    fun err s => ⟨rfl, rfl⟩, fun e s => ⟨rfl, rfl⟩,
    fun email phase rid s => ?_⟩
  · simp only [controlError, h, if_true]
  · have hObj : (err.get "error").isObjectType = false := by
      cases hv : err.get "error" <;> simp_all [Js.isStr, Js.isObjectType]
    simp only [controlError, hObj, Bool.and_false, Bool.false_and, Bool.false_eq_true,
      if_false, h, if_true]
  · simp only [controlError, h1, Bool.false_eq_true, if_false, h2]
  · have hadd : ∀ q : NetPhase,
        (addToCart email q rid s).visibleError = s.visibleError ∧
        (addToCart email q rid s).errorMessage = s.errorMessage := by
      intro q
      cases email with
      | none => exact ⟨rfl, rfl⟩
      | some e => cases q <;> exact ⟨rfl, rfl⟩
    have hrem : (removeFromCart email phase rid s).visibleError = s.visibleError ∧
        (removeFromCart email phase rid s).errorMessage = s.errorMessage := by
      cases email with
      | none => exact ⟨rfl, rfl⟩
      | some e =>
        simp only [removeFromCart]
        cases hf : s.records.items.find? (fun r => r.idRecord == rid) with
        | none => exact ⟨rfl, rfl⟩
        | some r0 =>
          by_cases hc : r0.inCart
          · simp only [hc, Bool.not_true, Bool.false_eq_true, if_false]
            cases phase <;> exact ⟨rfl, rfl⟩
          · have hfalse : r0.inCart = false := by simpa using hc
            simp [hfalse]
    exact ⟨(hadd phase).1, (hadd phase).2, hrem.1, hrem.2⟩

/-- Claim C5 witness: the three message-extraction cases at concrete error
bodies; a concrete record-fetch error raising the flag; and a concrete
failed cart add leaving it down. -/
theorem C5_witness :
    (getRecordsInner (.error exErr) (.ok (Js.arr [])) exState1).visibleError = true ∧
    controlError exErr = "boom" ∧
    controlError (Js.obj [("error", Js.str "raw")]) = "raw" ∧
    controlError (Js.obj []) = "An unexpected error has occurred" ∧
    (addToCart (some "u") NetPhase.failure 1 exState1).visibleError =
      exState1.visibleError :=
  ⟨(C5_amended.1 exErr (.ok (Js.arr [])) exState1).1,
   (C5_amended.2.1 exErr).1 rfl,
   (C5_amended.2.1 (Js.obj [("error", Js.str "raw")])).2.1 rfl,
   (C5_amended.2.1 (Js.obj [])).2.2 rfl rfl,
   (C5_amended.2.2.2.2 (some "u") NetPhase.failure 1 exState1).1⟩

end ECom
